import Mathlib

/-!
Shallow embedding of `src/filesvr.rs` from the hyper-file repository.

The file defines `FileService` (the boxed-asynchronous-unit adapter via
`serv`), `FileServiceFuture` (the hand-rolled pollable adapter via `poll`)
and `FileServiceMaker` (the service factory).  Its collaborators
`crate::request_resolve` (Resolution Engine), `crate::resp_builder`
(response construction) and `crate::body` (the body abstraction) are not
part of the visible sources, so they are modelled from the spec's
interface boundary (section 6) and left abstract wherever possible: the
adapters are parameterised over a resolution function or engine and over
a build function.
-/

/-- Modelled from the spec: the body abstraction (`crate::body::Body`, not
under src/) must support at minimum an empty variant, used for every
non-Found status; further content-carrying variants are opaque here. -/
inductive Body where
  | Empty
  | Chunk (data : String)
  deriving DecidableEq

/-- Model of `std::io::ErrorKind`; only the variants relevant to this core
are listed, `Other` being the generic kind used at the unification point. -/
inductive ErrorKind where
  | NotFoundKind
  | PermissionDeniedKind
  | Other
  deriving DecidableEq

/-- Model of the construction-failure type produced by the response builder
and by `hyper::Response::builder` (an `http::Error`-shaped value): `source`
stands for the original failure's specific type or class, `msg` for its
display message. -/
structure ConstrError where
  source : String
  msg : String
  deriving DecidableEq

/-- Model of `std::io::Error`: a kind plus the display message. -/
structure Error where
  kind : ErrorKind
  msg : String
  deriving DecidableEq

/-- Model of `std::io::Error::new(kind, e)`: the boxed source error's
specific type is erased, its display message is what the new error shows. -/
def Error.new (kind : ErrorKind) (e : ConstrError) : Error :=
  { kind := kind, msg := e.msg }

/-- Modelled from the spec: the opaque, resolution-engine-owned file handle
carried by the Found variant. -/
structure FileHandle where
  id : Nat
  deriving DecidableEq

/-- Model of `crate::request_resolve::Resolved`, the closed set of
resolution outcomes, as matched exhaustively in `filesvr.rs`. -/
inductive Resolved where
  | IsDirectory
  | MethodNotMatched
  | NotFound
  | PermissionDenied
  | Found (f : FileHandle)
  deriving DecidableEq

/-- Model of `hyper::Request<B>`: the parts this core can observe. -/
structure Request (B : Type) where
  method : String
  uri : String
  body : B
  deriving DecidableEq

/-- Model of `hyper::Response<Body>`: status code and body. -/
structure Response where
  status : Nat
  body : Body
  deriving DecidableEq

/-- Model of `Response::builder().status(c).body(b)`.  The hyper builder
only fails on invalid parts; the constant status codes used in
`filesvr.rs` are valid, so the result is always `ok`. -/
def Response.builder_status_body (status : Nat) (body : Body) :
    Except ConstrError Response :=
  Except.ok { status := status, body := body }

/-- Model of `std::task::Poll`. -/
inductive Poll (α : Type) where
  | Ready (a : α)
  | Pending
  deriving DecidableEq

/-- Model of `FileService`: holds only the root path. -/
structure FileService where
  local_root : String
  deriving DecidableEq

/-- Model of `FileService::new`. -/
def FileService.new (root : String) : FileService :=
  { local_root := root }

/-- Model of the derived `Clone` for `FileService`: field-wise copy. -/
def FileService.clone (self : FileService) : FileService :=
  { local_root := self.local_root }

/-- Model of `FileService::serv`.  The awaited
`RequestResolve::new(&self.local_root, &request).resolve()` is abstracted
by the `resolve` parameter (its final result), and
`ResponseBuilder::new().build(f)` by the `build` parameter, both per the
spec's section 6 interfaces since their sources are not visible.  The
outcome match and the error-unification match are transcribed literally. -/
def FileService.serv {B : Type}
    (resolve : String → Request B → Except Error Resolved)
    (build : FileHandle → Except ConstrError Response)
    (self : FileService) (request : Request B) : Except Error Response :=
  match resolve self.local_root request with
  | Except.error e => Except.error e
  | Except.ok resolved =>
    let resp : Except ConstrError Response :=
      match resolved with
      | Resolved.IsDirectory => Response.builder_status_body 403 Body.Empty
      | Resolved.MethodNotMatched => Response.builder_status_body 400 Body.Empty
      | Resolved.NotFound => Response.builder_status_body 404 Body.Empty
      | Resolved.PermissionDenied => Response.builder_status_body 403 Body.Empty
      | Resolved.Found f => build f
    match resp with
    | Except.ok resp => Except.ok resp
    | Except.error e => Except.error (Error.new ErrorKind.Other e)

/-- Model of `Service::call` for `FileService`: `self` is received by
mutable reference but only cloned, and the returned future is
`self.clone().serv(request)`; the pair returns the post-call state of the
service alongside the eventual output of that future. -/
def FileService.call {B : Type}
    (resolve : String → Request B → Except Error Resolved)
    (build : FileHandle → Except ConstrError Response)
    (self : FileService) (request : Request B) :
    FileService × Except Error Response :=
  (self, FileService.serv resolve build (FileService.clone self) request)

/-- Model of `Service::poll_ready` for `FileService`. -/
def FileService.poll_ready (self : FileService) :
    FileService × Poll (Except Error Unit) :=
  (self, Poll.Ready (Except.ok ()))

/-- Modelled from the spec: the Resolution Engine
(`crate::request_resolve::RequestResolve`, not under src/).  Per section 6
it is constructed from a root and a request and is itself a suspending
unit: `step` advances its state one poll, yielding `none` for Pending or
`some` of the final result. -/
structure ResolveEngine (B σ : Type) where
  new : String → Request B → σ
  step : σ → σ × Option (Except Error Resolved)

/-- Model of `FileServiceFuture<B>`: exactly the fields of the Rust
struct — the request and the root path, and notably no field holding an
in-flight resolution attempt. -/
structure FileServiceFuture (B : Type) where
  request : Request B
  local_root : String
  deriving DecidableEq

/-- Model of `FileServiceFuture::new`. -/
def FileServiceFuture.new {B : Type} (local_root : String)
    (request : Request B) : FileServiceFuture B :=
  { request := request, local_root := local_root }

/-- Model of `Future::poll` for `FileServiceFuture`.  As in the source, a
fresh `RequestResolve` is built from the stored root and request on every
call, advanced exactly one step, and then dropped (its updated state, the
first component of `E.step`, is discarded); the future's own fields are
only read, so the returned future state is `self` unchanged. -/
def FileServiceFuture.poll {B σ : Type} (E : ResolveEngine B σ)
    (build : FileHandle → Except ConstrError Response)
    (self : FileServiceFuture B) :
    FileServiceFuture B × Poll (Except Error Response) :=
  let req_resolve := E.new self.local_root self.request
  match (E.step req_resolve).2 with
  | none => (self, Poll.Pending)
  | some (Except.error e) => (self, Poll.Ready (Except.error e))
  | some (Except.ok resolved) =>
    let resp : Except ConstrError Response :=
      match resolved with
      | Resolved.IsDirectory => Response.builder_status_body 403 Body.Empty
      | Resolved.MethodNotMatched => Response.builder_status_body 400 Body.Empty
      | Resolved.NotFound => Response.builder_status_body 404 Body.Empty
      | Resolved.PermissionDenied => Response.builder_status_body 403 Body.Empty
      | Resolved.Found f => build f
    match resp with
    | Except.ok resp => (self, Poll.Ready (Except.ok resp))
    | Except.error e =>
      (self, Poll.Ready (Except.error (Error.new ErrorKind.Other e)))

/-- Repeated advancing of a `FileServiceFuture`: `pollIter n` is the
state and signal after the future has been polled `n + 1` times, each
poll starting from the future state the previous poll returned. -/
def FileServiceFuture.pollIter {B σ : Type} (E : ResolveEngine B σ)
    (build : FileHandle → Except ConstrError Response)
    (self : FileServiceFuture B) : Nat → FileServiceFuture B × Poll (Except Error Response)
  | 0 => FileServiceFuture.poll E build self
  | Nat.succ n =>
    FileServiceFuture.poll E build
      (FileServiceFuture.pollIter E build self n).1

/-- Model of `hyper::Error`, the factory's error type; never constructed
by this core. -/
structure HyperError where
  msg : String
  deriving DecidableEq

/-- Model of `FileServiceMaker`: holds only the root path. -/
structure FileServiceMaker where
  local_root : String
  deriving DecidableEq

/-- Model of `FileServiceMaker::new`. -/
def FileServiceMaker.new (local_root : String) : FileServiceMaker :=
  { local_root := local_root }

/-- Model of `Service::poll_ready` for `FileServiceMaker`. -/
def FileServiceMaker.poll_ready (self : FileServiceMaker) :
    FileServiceMaker × Poll (Except HyperError Unit) :=
  (self, Poll.Ready (Except.ok ()))

/-- Model of `Service::call` for `FileServiceMaker`: the connection
context is ignored, the root is cloned, and the returned async block has
no await points, so its first poll is `Ready(Ok(FileService::new(root)))`;
the pair returns the post-call maker state alongside that first-poll
result. -/
def FileServiceMaker.call {T : Type} (self : FileServiceMaker) (_ : T) :
    FileServiceMaker × Poll (Except HyperError FileService) :=
  (self, Poll.Ready (Except.ok (FileService.new self.local_root)))

/-- A resolution function that always yields the given final result. -/
def constResolve {B : Type} (z : Except Error Resolved) :
    String → Request B → Except Error Resolved :=
  fun _ _ => z

/-- A resolution engine whose attempt is ready with the given result on
its very first step. -/
def constEngine {B : Type} (z : Except Error Resolved) : ResolveEngine B Unit :=
  { new := fun _ _ => (), step := fun s => (s, some z) }

/-- A resolution engine whose attempt legitimately suspends once: the
first step from a fresh state returns Pending, and the second step, taken
from the state the first step returned, is ready with `NotFound`. -/
def twoStepEngine (B : Type) : ResolveEngine B Nat :=
  { new := fun _ _ => 0
  , step := fun s =>
      (s + 1, if s = 0 then none else some (Except.ok Resolved.NotFound)) }

/-- The proposition that the string `outer` contains `inner` as a
substring. -/
def msgContains (outer inner : String) : Prop :=
  ∃ p s, outer = p ++ inner ++ s

/-- C1: for every Resolution Outcome variant with a fixed status, the
outcome match in both adapters returns exactly the status table of
section 4.1 — IsDirectory maps to 403, MethodNotMatched to 400, NotFound
to 404, PermissionDenied to 403, each with an empty body. -/
theorem c1_status_table {B : Type}
    (build : FileHandle → Except ConstrError Response)
    (self : FileService) (request : Request B) (fut : FileServiceFuture B) :
    FileService.serv (constResolve (Except.ok Resolved.IsDirectory)) build self request
      = Except.ok { status := 403, body := Body.Empty }
    ∧ FileService.serv (constResolve (Except.ok Resolved.MethodNotMatched)) build self request
      = Except.ok { status := 400, body := Body.Empty }
    ∧ FileService.serv (constResolve (Except.ok Resolved.NotFound)) build self request
      = Except.ok { status := 404, body := Body.Empty }
    ∧ FileService.serv (constResolve (Except.ok Resolved.PermissionDenied)) build self request
      = Except.ok { status := 403, body := Body.Empty }
    ∧ (FileServiceFuture.poll (constEngine (Except.ok Resolved.IsDirectory)) build fut).2
      = Poll.Ready (Except.ok { status := 403, body := Body.Empty })
    ∧ (FileServiceFuture.poll (constEngine (Except.ok Resolved.MethodNotMatched)) build fut).2
      = Poll.Ready (Except.ok { status := 400, body := Body.Empty })
    ∧ (FileServiceFuture.poll (constEngine (Except.ok Resolved.NotFound)) build fut).2
      = Poll.Ready (Except.ok { status := 404, body := Body.Empty })
    ∧ (FileServiceFuture.poll (constEngine (Except.ok Resolved.PermissionDenied)) build fut).2
      = Poll.Ready (Except.ok { status := 403, body := Body.Empty }) :=
  ⟨rfl, rfl, rfl, rfl, rfl, rfl, rfl, rfl⟩

/-- C2: the claim that each advance of the pollable adapter resumes the
previously stored resolution attempt fails on the code.  The Rust struct
stores only the request and the root path; `poll` builds a fresh
resolution attempt on every call and drops it.  With an engine whose
attempt legitimately suspends once before completing, every advance call
returns Pending forever — in particular the second advance does not
resume the first attempt's progress — even though the engine itself
completes on the second step when its state from the first step is
resumed. -/
theorem c2_poll_rebuilds_attempt {B : Type}
    (build : FileHandle → Except ConstrError Response)
    (root : String) (request : Request B) :
    (∀ n : Nat,
      (FileServiceFuture.pollIter (twoStepEngine B) build
        (FileServiceFuture.new root request) n).2 = Poll.Pending)
    ∧ ((twoStepEngine B).step
        (((twoStepEngine B).step ((twoStepEngine B).new root request)).1)).2
      = some (Except.ok Resolved.NotFound) := by
  constructor
  · have aux : ∀ n : Nat,
        FileServiceFuture.pollIter (twoStepEngine B) build
          (FileServiceFuture.new root request) n
        = (FileServiceFuture.new root request, Poll.Pending) := by
      intro n
      induction n with
      | zero => rfl
      | succ n ih =>
        show FileServiceFuture.poll (twoStepEngine B) build
            (FileServiceFuture.pollIter (twoStepEngine B) build
              (FileServiceFuture.new root request) n).1
          = (FileServiceFuture.new root request, Poll.Pending)
        rw [ih]
        rfl
    intro n
    rw [aux n]
  · rfl

/-- C3: whenever the resolution engine's attempt is ready with result `z`
on its first step, the pollable adapter's poll yields Ready of exactly
the value the asynchronous-unit adapter's serv produces when its awaited
resolution yields the same `z`, for every root, request and build
function — the two call conventions agree on every final response and
error. -/
theorem c3_adapters_agree {B σ : Type} (E : ResolveEngine B σ)
    (build : FileHandle → Except ConstrError Response)
    (root : String) (request : Request B) (z : Except Error Resolved)
    (h : (E.step (E.new root request)).2 = some z) :
    (FileServiceFuture.poll E build (FileServiceFuture.new root request)).2
      = Poll.Ready
          (FileService.serv (constResolve z) build (FileService.new root) request) := by
  show ((match (E.step (E.new root request)).2 with
    | none => (FileServiceFuture.new root request, Poll.Pending)
    | some (Except.error e) =>
      (FileServiceFuture.new root request, Poll.Ready (Except.error e))
    | some (Except.ok resolved) =>
      match (match resolved with
        | Resolved.IsDirectory => Response.builder_status_body 403 Body.Empty
        | Resolved.MethodNotMatched => Response.builder_status_body 400 Body.Empty
        | Resolved.NotFound => Response.builder_status_body 404 Body.Empty
        | Resolved.PermissionDenied => Response.builder_status_body 403 Body.Empty
        | Resolved.Found f => build f : Except ConstrError Response) with
      | Except.ok resp =>
        (FileServiceFuture.new root request, Poll.Ready (Except.ok resp))
      | Except.error e =>
        (FileServiceFuture.new root request,
          Poll.Ready (Except.error (Error.new ErrorKind.Other e)))) :
      FileServiceFuture B × Poll (Except Error Response)).2
    = Poll.Ready
        (FileService.serv (constResolve z) build (FileService.new root) request)
  rw [h]
  rcases z with e | r
  · rfl
  · rcases r with _ | _ | _ | _ | f
    · rfl
    · rfl
    · rfl
    · rfl
    · show (match build f with
        | Except.ok resp =>
          (FileServiceFuture.new root request, Poll.Ready (Except.ok resp))
        | Except.error e =>
          (FileServiceFuture.new root request,
            Poll.Ready (Except.error (Error.new ErrorKind.Other e)))).2
        = Poll.Ready
            (match build f with
              | Except.ok resp => Except.ok resp
              | Except.error e => Except.error (Error.new ErrorKind.Other e))
      rcases build f with e | resp
      · rfl
      · rfl

/-- C3 witness: the equivalence instantiated at a concrete ready engine,
build function, root and request. -/
theorem c3_adapters_agree_witness :
    ((constEngine (B := Unit) (Except.ok Resolved.NotFound)).step
        ((constEngine (Except.ok Resolved.NotFound)).new "/srv"
          { method := "GET", uri := "/srv/a.txt", body := () })).2
      = some (Except.ok Resolved.NotFound)
    ∧ (FileServiceFuture.poll (constEngine (Except.ok Resolved.NotFound))
        (fun _ => Except.ok { status := 200, body := Body.Chunk "hello" })
        (FileServiceFuture.new "/srv"
          { method := "GET", uri := "/srv/a.txt", body := () })).2
      = Poll.Ready
          (FileService.serv (constResolve (Except.ok Resolved.NotFound))
            (fun _ => Except.ok { status := 200, body := Body.Chunk "hello" })
            (FileService.new "/srv")
            { method := "GET", uri := "/srv/a.txt", body := () }) :=
  ⟨rfl, c3_adapters_agree (constEngine (Except.ok Resolved.NotFound))
    (fun _ => Except.ok { status := 200, body := Body.Chunk "hello" })
    "/srv" { method := "GET", uri := "/srv/a.txt", body := () }
    (Except.ok Resolved.NotFound) rfl⟩

/-- C4: when resolution yields Found f and the response-construction
collaborator fails with e, both adapters return an error (not a partial
response): the unified error is an I/O-class error with the generic kind,
and its message contains the original construction failure's message,
while the failure's specific type (its source class) no longer appears in
the error value. -/
theorem c4_construction_failure_unified {B σ : Type}
    (resolve : String → Request B → Except Error Resolved)
    (E : ResolveEngine B σ)
    (build : FileHandle → Except ConstrError Response)
    (self : FileService) (fut : FileServiceFuture B)
    (request : Request B) (f : FileHandle) (e : ConstrError)
    (hres : resolve self.local_root request = Except.ok (Resolved.Found f))
    (heng : (E.step (E.new fut.local_root fut.request)).2
      = some (Except.ok (Resolved.Found f)))
    (hbuild : build f = Except.error e) :
    FileService.serv resolve build self request
      = Except.error (Error.new ErrorKind.Other e)
    ∧ (FileServiceFuture.poll E build fut).2
      = Poll.Ready (Except.error (Error.new ErrorKind.Other e))
    ∧ msgContains (Error.new ErrorKind.Other e).msg e.msg := by
  refine ⟨?_, ?_, "", "", by simp [Error.new]⟩
  · show (match resolve self.local_root request with
      | Except.error e => Except.error e
      | Except.ok resolved =>
        match (match resolved with
          | Resolved.IsDirectory => Response.builder_status_body 403 Body.Empty
          | Resolved.MethodNotMatched => Response.builder_status_body 400 Body.Empty
          | Resolved.NotFound => Response.builder_status_body 404 Body.Empty
          | Resolved.PermissionDenied => Response.builder_status_body 403 Body.Empty
          | Resolved.Found f => build f : Except ConstrError Response) with
        | Except.ok resp => Except.ok resp
        | Except.error e => Except.error (Error.new ErrorKind.Other e))
      = Except.error (Error.new ErrorKind.Other e)
    rw [hres]
    show (match build f with
      | Except.ok resp => Except.ok resp
      | Except.error e => Except.error (Error.new ErrorKind.Other e))
      = Except.error (Error.new ErrorKind.Other e)
    rw [hbuild]
  · show ((match (E.step (E.new fut.local_root fut.request)).2 with
      | none => (fut, Poll.Pending)
      | some (Except.error e) => (fut, Poll.Ready (Except.error e))
      | some (Except.ok resolved) =>
        match (match resolved with
          | Resolved.IsDirectory => Response.builder_status_body 403 Body.Empty
          | Resolved.MethodNotMatched => Response.builder_status_body 400 Body.Empty
          | Resolved.NotFound => Response.builder_status_body 404 Body.Empty
          | Resolved.PermissionDenied => Response.builder_status_body 403 Body.Empty
          | Resolved.Found f => build f : Except ConstrError Response) with
        | Except.ok resp => (fut, Poll.Ready (Except.ok resp))
        | Except.error e =>
          (fut, Poll.Ready (Except.error (Error.new ErrorKind.Other e)))) :
        FileServiceFuture B × Poll (Except Error Response)).2
      = Poll.Ready (Except.error (Error.new ErrorKind.Other e))
    rw [heng]
    show (match build f with
      | Except.ok resp => (fut, Poll.Ready (Except.ok resp))
      | Except.error e =>
        (fut, Poll.Ready (Except.error (Error.new ErrorKind.Other e))) :
        FileServiceFuture B × Poll (Except Error Response)).2
      = Poll.Ready (Except.error (Error.new ErrorKind.Other e))
    rw [hbuild]

/-- C4 witness: the construction-failure unification instantiated at a
concrete resolve function, engine, build failure and request. -/
theorem c4_construction_failure_unified_witness :
    constResolve (B := Unit) (Except.ok (Resolved.Found { id := 7 })) "/srv"
        { method := "GET", uri := "/srv/f.txt", body := () }
      = Except.ok (Resolved.Found { id := 7 })
    ∧ (FileService.serv (constResolve (Except.ok (Resolved.Found { id := 7 })))
        (fun _ => Except.error { source := "HttpError", msg := "bad header" })
        (FileService.new "/srv")
        { method := "GET", uri := "/srv/f.txt", body := () }
      = Except.error
          (Error.new ErrorKind.Other { source := "HttpError", msg := "bad header" })
    ∧ (FileServiceFuture.poll (constEngine (Except.ok (Resolved.Found { id := 7 })))
        (fun _ => Except.error { source := "HttpError", msg := "bad header" })
        (FileServiceFuture.new "/srv"
          { method := "GET", uri := "/srv/f.txt", body := () })).2
      = Poll.Ready (Except.error
          (Error.new ErrorKind.Other { source := "HttpError", msg := "bad header" }))
    ∧ msgContains
        (Error.new ErrorKind.Other { source := "HttpError", msg := "bad header" }).msg
        "bad header") :=
  ⟨rfl, c4_construction_failure_unified
    (constResolve (Except.ok (Resolved.Found { id := 7 })))
    (constEngine (Except.ok (Resolved.Found { id := 7 })))
    (fun _ => Except.error { source := "HttpError", msg := "bad header" })
    (FileService.new "/srv")
    (FileServiceFuture.new "/srv" { method := "GET", uri := "/srv/f.txt", body := () })
    { method := "GET", uri := "/srv/f.txt", body := () }
    { id := 7 } { source := "HttpError", msg := "bad header" }
    rfl rfl rfl⟩

/-- C5: when resolution yields Found f and the response-construction
collaborator succeeds with response r, both adapters return exactly r,
unchanged. -/
theorem c5_found_success_passthrough {B σ : Type}
    (resolve : String → Request B → Except Error Resolved)
    (E : ResolveEngine B σ)
    (build : FileHandle → Except ConstrError Response)
    (self : FileService) (fut : FileServiceFuture B)
    (request : Request B) (f : FileHandle) (r : Response)
    (hres : resolve self.local_root request = Except.ok (Resolved.Found f))
    (heng : (E.step (E.new fut.local_root fut.request)).2
      = some (Except.ok (Resolved.Found f)))
    (hbuild : build f = Except.ok r) :
    FileService.serv resolve build self request = Except.ok r
    ∧ (FileServiceFuture.poll E build fut).2 = Poll.Ready (Except.ok r) := by
  constructor
  · show (match resolve self.local_root request with
      | Except.error e => Except.error e
      | Except.ok resolved =>
        match (match resolved with
          | Resolved.IsDirectory => Response.builder_status_body 403 Body.Empty
          | Resolved.MethodNotMatched => Response.builder_status_body 400 Body.Empty
          | Resolved.NotFound => Response.builder_status_body 404 Body.Empty
          | Resolved.PermissionDenied => Response.builder_status_body 403 Body.Empty
          | Resolved.Found f => build f : Except ConstrError Response) with
        | Except.ok resp => Except.ok resp
        | Except.error e => Except.error (Error.new ErrorKind.Other e))
      = Except.ok r
    rw [hres]
    show (match build f with
      | Except.ok resp => Except.ok resp
      | Except.error e => Except.error (Error.new ErrorKind.Other e))
      = Except.ok r
    rw [hbuild]
  · show ((match (E.step (E.new fut.local_root fut.request)).2 with
      | none => (fut, Poll.Pending)
      | some (Except.error e) => (fut, Poll.Ready (Except.error e))
      | some (Except.ok resolved) =>
        match (match resolved with
          | Resolved.IsDirectory => Response.builder_status_body 403 Body.Empty
          | Resolved.MethodNotMatched => Response.builder_status_body 400 Body.Empty
          | Resolved.NotFound => Response.builder_status_body 404 Body.Empty
          | Resolved.PermissionDenied => Response.builder_status_body 403 Body.Empty
          | Resolved.Found f => build f : Except ConstrError Response) with
        | Except.ok resp => (fut, Poll.Ready (Except.ok resp))
        | Except.error e =>
          (fut, Poll.Ready (Except.error (Error.new ErrorKind.Other e)))) :
        FileServiceFuture B × Poll (Except Error Response)).2
      = Poll.Ready (Except.ok r)
    rw [heng]
    show (match build f with
      | Except.ok resp => (fut, Poll.Ready (Except.ok resp))
      | Except.error e =>
        (fut, Poll.Ready (Except.error (Error.new ErrorKind.Other e))) :
        FileServiceFuture B × Poll (Except Error Response)).2
      = Poll.Ready (Except.ok r)
    rw [hbuild]

/-- C5 witness: the success pass-through instantiated at a concrete
resolve function, engine, build result and request. -/
theorem c5_found_success_passthrough_witness :
    constResolve (B := Unit) (Except.ok (Resolved.Found { id := 3 })) "/srv"
        { method := "GET", uri := "/srv/ok.txt", body := () }
      = Except.ok (Resolved.Found { id := 3 })
    ∧ (FileService.serv (constResolve (Except.ok (Resolved.Found { id := 3 })))
        (fun _ => Except.ok { status := 200, body := Body.Chunk "content" })
        (FileService.new "/srv")
        { method := "GET", uri := "/srv/ok.txt", body := () }
      = Except.ok { status := 200, body := Body.Chunk "content" }
    ∧ (FileServiceFuture.poll (constEngine (Except.ok (Resolved.Found { id := 3 })))
        (fun _ => Except.ok { status := 200, body := Body.Chunk "content" })
        (FileServiceFuture.new "/srv"
          { method := "GET", uri := "/srv/ok.txt", body := () })).2
      = Poll.Ready (Except.ok { status := 200, body := Body.Chunk "content" })) :=
  ⟨rfl, c5_found_success_passthrough
    (constResolve (Except.ok (Resolved.Found { id := 3 })))
    (constEngine (Except.ok (Resolved.Found { id := 3 })))
    (fun _ => Except.ok { status := 200, body := Body.Chunk "content" })
    (FileService.new "/srv")
    (FileServiceFuture.new "/srv" { method := "GET", uri := "/srv/ok.txt", body := () })
    { method := "GET", uri := "/srv/ok.txt", body := () }
    { id := 3 } { status := 200, body := Body.Chunk "content" }
    rfl rfl rfl⟩

/-- C6: a fatal I/O error produced by the Resolution Engine during
resolution terminates the dispatch in both adapters with that same error
value, unchanged, and no response is produced. -/
theorem c6_fatal_error_propagated {B σ : Type}
    (resolve : String → Request B → Except Error Resolved)
    (E : ResolveEngine B σ)
    (build : FileHandle → Except ConstrError Response)
    (self : FileService) (fut : FileServiceFuture B)
    (request : Request B) (e : Error)
    (hres : resolve self.local_root request = Except.error e)
    (heng : (E.step (E.new fut.local_root fut.request)).2
      = some (Except.error e)) :
    FileService.serv resolve build self request = Except.error e
    ∧ (FileServiceFuture.poll E build fut).2 = Poll.Ready (Except.error e) := by
  constructor
  · show (match resolve self.local_root request with
      | Except.error e => Except.error e
      | Except.ok resolved =>
        match (match resolved with
          | Resolved.IsDirectory => Response.builder_status_body 403 Body.Empty
          | Resolved.MethodNotMatched => Response.builder_status_body 400 Body.Empty
          | Resolved.NotFound => Response.builder_status_body 404 Body.Empty
          | Resolved.PermissionDenied => Response.builder_status_body 403 Body.Empty
          | Resolved.Found f => build f : Except ConstrError Response) with
        | Except.ok resp => Except.ok resp
        | Except.error e => Except.error (Error.new ErrorKind.Other e))
      = Except.error e
    rw [hres]
  · show ((match (E.step (E.new fut.local_root fut.request)).2 with
      | none => (fut, Poll.Pending)
      | some (Except.error e) => (fut, Poll.Ready (Except.error e))
      | some (Except.ok resolved) =>
        match (match resolved with
          | Resolved.IsDirectory => Response.builder_status_body 403 Body.Empty
          | Resolved.MethodNotMatched => Response.builder_status_body 400 Body.Empty
          | Resolved.NotFound => Response.builder_status_body 404 Body.Empty
          | Resolved.PermissionDenied => Response.builder_status_body 403 Body.Empty
          | Resolved.Found f => build f : Except ConstrError Response) with
        | Except.ok resp => (fut, Poll.Ready (Except.ok resp))
        | Except.error e =>
          (fut, Poll.Ready (Except.error (Error.new ErrorKind.Other e)))) :
        FileServiceFuture B × Poll (Except Error Response)).2
      = Poll.Ready (Except.error e)
    rw [heng]

/-- C6 witness: the fatal-error propagation instantiated at a concrete
error, resolve function, engine and request. -/
theorem c6_fatal_error_propagated_witness :
    constResolve (B := Unit)
        (Except.error { kind := ErrorKind.PermissionDeniedKind, msg := "disk fault" })
        "/srv" { method := "GET", uri := "/srv/x.txt", body := () }
      = Except.error { kind := ErrorKind.PermissionDeniedKind, msg := "disk fault" }
    ∧ (FileService.serv
        (constResolve
          (Except.error { kind := ErrorKind.PermissionDeniedKind, msg := "disk fault" }))
        (fun _ => Except.ok { status := 200, body := Body.Empty })
        (FileService.new "/srv")
        { method := "GET", uri := "/srv/x.txt", body := () }
      = Except.error { kind := ErrorKind.PermissionDeniedKind, msg := "disk fault" }
    ∧ (FileServiceFuture.poll
        (constEngine
          (Except.error { kind := ErrorKind.PermissionDeniedKind, msg := "disk fault" }))
        (fun _ => Except.ok { status := 200, body := Body.Empty })
        (FileServiceFuture.new "/srv"
          { method := "GET", uri := "/srv/x.txt", body := () })).2
      = Poll.Ready
          (Except.error { kind := ErrorKind.PermissionDeniedKind, msg := "disk fault" })) :=
  ⟨rfl, c6_fatal_error_propagated
    (constResolve
      (Except.error { kind := ErrorKind.PermissionDeniedKind, msg := "disk fault" }))
    (constEngine
      (Except.error { kind := ErrorKind.PermissionDeniedKind, msg := "disk fault" }))
    (fun _ => Except.ok { status := 200, body := Body.Empty })
    (FileService.new "/srv")
    (FileServiceFuture.new "/srv" { method := "GET", uri := "/srv/x.txt", body := () })
    { method := "GET", uri := "/srv/x.txt", body := () }
    { kind := ErrorKind.PermissionDeniedKind, msg := "disk fault" }
    rfl rfl⟩

/-- C7: for every connection context, the factory's call succeeds with a
ready-immediately unit yielding a new FileService that carries a copy of
the factory's root path; it never returns an error, and its poll_ready is
likewise immediately Ready Ok. -/
theorem c7_maker_always_ready_ok {T : Type} (maker : FileServiceMaker) (conn : T) :
    FileServiceMaker.call maker conn
      = (maker, Poll.Ready (Except.ok (FileService.new maker.local_root)))
    ∧ (FileService.new maker.local_root).local_root = maker.local_root
    ∧ FileServiceMaker.poll_ready maker = (maker, Poll.Ready (Except.ok ())) :=
  ⟨rfl, rfl, rfl⟩

/-- C8: no operation of the core mutates a stored root path after
construction: the service's call leaves the service (and so its root)
unchanged and runs serv on a clone made for that invocation, cloning
preserves the root, the factory's call leaves the factory unchanged, and
the readiness checks change nothing. -/
theorem c8_root_path_immutable {B T : Type}
    (resolve : String → Request B → Except Error Resolved)
    (build : FileHandle → Except ConstrError Response)
    (self : FileService) (request : Request B)
    (maker : FileServiceMaker) (conn : T) :
    (FileService.call resolve build self request).1 = self
    ∧ (FileService.clone self).local_root = self.local_root
    ∧ (FileService.call resolve build self request).2
      = FileService.serv resolve build (FileService.clone self) request
    ∧ (FileServiceMaker.call maker conn).1 = maker
    ∧ (FileService.poll_ready self).1 = self
    ∧ (FileServiceMaker.poll_ready maker).1 = maker :=
  ⟨rfl, rfl, rfl, rfl, rfl, rfl⟩

/-- C9: the outcome-to-response mapping never consults the request's
method or path again: two requests whose resolution produces the same
result receive the same final response from both adapters. -/
theorem c9_mapping_ignores_request {B σ : Type}
    (resolve : String → Request B → Except Error Resolved)
    (E : ResolveEngine B σ)
    (build : FileHandle → Except ConstrError Response)
    (self : FileService) (root : String) (r1 r2 : Request B)
    (hres : resolve self.local_root r1 = resolve self.local_root r2)
    (heng : E.step (E.new root r1) = E.step (E.new root r2)) :
    FileService.serv resolve build self r1 = FileService.serv resolve build self r2
    ∧ (FileServiceFuture.poll E build (FileServiceFuture.new root r1)).2
      = (FileServiceFuture.poll E build (FileServiceFuture.new root r2)).2 := by
  constructor
  · show (match resolve self.local_root r1 with
      | Except.error e => Except.error e
      | Except.ok resolved =>
        match (match resolved with
          | Resolved.IsDirectory => Response.builder_status_body 403 Body.Empty
          | Resolved.MethodNotMatched => Response.builder_status_body 400 Body.Empty
          | Resolved.NotFound => Response.builder_status_body 404 Body.Empty
          | Resolved.PermissionDenied => Response.builder_status_body 403 Body.Empty
          | Resolved.Found f => build f : Except ConstrError Response) with
        | Except.ok resp => Except.ok resp
        | Except.error e => Except.error (Error.new ErrorKind.Other e))
      = FileService.serv resolve build self r2
    rw [hres]
    rfl
  · show ((match (E.step (E.new root r1)).2 with
      | none => (FileServiceFuture.new root r1, Poll.Pending)
      | some (Except.error e) =>
        (FileServiceFuture.new root r1, Poll.Ready (Except.error e))
      | some (Except.ok resolved) =>
        match (match resolved with
          | Resolved.IsDirectory => Response.builder_status_body 403 Body.Empty
          | Resolved.MethodNotMatched => Response.builder_status_body 400 Body.Empty
          | Resolved.NotFound => Response.builder_status_body 404 Body.Empty
          | Resolved.PermissionDenied => Response.builder_status_body 403 Body.Empty
          | Resolved.Found f => build f : Except ConstrError Response) with
        | Except.ok resp =>
          (FileServiceFuture.new root r1, Poll.Ready (Except.ok resp))
        | Except.error e =>
          (FileServiceFuture.new root r1,
            Poll.Ready (Except.error (Error.new ErrorKind.Other e)))) :
        FileServiceFuture B × Poll (Except Error Response)).2
      = ((match (E.step (E.new root r2)).2 with
      | none => (FileServiceFuture.new root r2, Poll.Pending)
      | some (Except.error e) =>
        (FileServiceFuture.new root r2, Poll.Ready (Except.error e))
      | some (Except.ok resolved) =>
        match (match resolved with
          | Resolved.IsDirectory => Response.builder_status_body 403 Body.Empty
          | Resolved.MethodNotMatched => Response.builder_status_body 400 Body.Empty
          | Resolved.NotFound => Response.builder_status_body 404 Body.Empty
          | Resolved.PermissionDenied => Response.builder_status_body 403 Body.Empty
          | Resolved.Found f => build f : Except ConstrError Response) with
        | Except.ok resp =>
          (FileServiceFuture.new root r2, Poll.Ready (Except.ok resp))
        | Except.error e =>
          (FileServiceFuture.new root r2,
            Poll.Ready (Except.error (Error.new ErrorKind.Other e)))) :
        FileServiceFuture B × Poll (Except Error Response)).2
    rw [heng]
    rcases h2 : (E.step (E.new root r2)).2 with _ | z
    · rfl
    · rcases z with e | r
      · rfl
      · rcases r with _ | _ | _ | _ | f
        · rfl
        · rfl
        · rfl
        · rfl
        · rcases hb : build f with e | resp
          · show (match build f with
              | Except.ok resp =>
                (FileServiceFuture.new root r1, Poll.Ready (Except.ok resp))
              | Except.error e =>
                (FileServiceFuture.new root r1,
                  Poll.Ready (Except.error (Error.new ErrorKind.Other e))) :
                FileServiceFuture B × Poll (Except Error Response)).2
              = (match build f with
              | Except.ok resp =>
                (FileServiceFuture.new root r2, Poll.Ready (Except.ok resp))
              | Except.error e =>
                (FileServiceFuture.new root r2,
                  Poll.Ready (Except.error (Error.new ErrorKind.Other e))) :
                FileServiceFuture B × Poll (Except Error Response)).2
            rw [hb]
          · show (match build f with
              | Except.ok resp =>
                (FileServiceFuture.new root r1, Poll.Ready (Except.ok resp))
              | Except.error e =>
                (FileServiceFuture.new root r1,
                  Poll.Ready (Except.error (Error.new ErrorKind.Other e))) :
                FileServiceFuture B × Poll (Except Error Response)).2
              = (match build f with
              | Except.ok resp =>
                (FileServiceFuture.new root r2, Poll.Ready (Except.ok resp))
              | Except.error e =>
                (FileServiceFuture.new root r2,
                  Poll.Ready (Except.error (Error.new ErrorKind.Other e))) :
                FileServiceFuture B × Poll (Except Error Response)).2
            rw [hb]

/-- C9 witness: two requests that differ in both method and path but
resolve to the same outcome receive the same response from both
adapters. -/
theorem c9_mapping_ignores_request_witness :
    constResolve (B := Unit) (Except.ok Resolved.NotFound) "/srv"
        { method := "GET", uri := "/srv/a.txt", body := () }
      = constResolve (Except.ok Resolved.NotFound) "/srv"
        { method := "DELETE", uri := "/srv/b.txt", body := () }
    ∧ (FileService.serv (constResolve (Except.ok Resolved.NotFound))
        (fun _ => Except.ok { status := 200, body := Body.Empty })
        (FileService.new "/srv")
        { method := "GET", uri := "/srv/a.txt", body := () }
      = FileService.serv (constResolve (Except.ok Resolved.NotFound))
        (fun _ => Except.ok { status := 200, body := Body.Empty })
        (FileService.new "/srv")
        { method := "DELETE", uri := "/srv/b.txt", body := () }
    ∧ (FileServiceFuture.poll (constEngine (Except.ok Resolved.NotFound))
        (fun _ => Except.ok { status := 200, body := Body.Empty })
        (FileServiceFuture.new "/srv"
          { method := "GET", uri := "/srv/a.txt", body := () })).2
      = (FileServiceFuture.poll (constEngine (Except.ok Resolved.NotFound))
        (fun _ => Except.ok { status := 200, body := Body.Empty })
        (FileServiceFuture.new "/srv"
          { method := "DELETE", uri := "/srv/b.txt", body := () })).2) :=
  ⟨rfl, c9_mapping_ignores_request
    (constResolve (Except.ok Resolved.NotFound))
    (constEngine (Except.ok Resolved.NotFound))
    (fun _ => Except.ok { status := 200, body := Body.Empty })
    (FileService.new "/srv") "/srv"
    { method := "GET", uri := "/srv/a.txt", body := () }
    { method := "DELETE", uri := "/srv/b.txt", body := () }
    rfl rfl⟩

/-- C10: every construction failure wrapped at the dispatcher boundary
yields an error whose kind is the generic Other I/O kind, whatever the
original failure's source class was; in particular two wrapped failures
of different source classes carry the same kind, so callers cannot
distinguish construction failure classes by error kind. -/
theorem c10_wrapped_kind_always_other {B σ : Type}
    (resolve : String → Request B → Except Error Resolved)
    (E : ResolveEngine B σ)
    (build : FileHandle → Except ConstrError Response)
    (self : FileService) (fut : FileServiceFuture B)
    (request : Request B) (f : FileHandle) (e e2 : ConstrError)
    (hres : resolve self.local_root request = Except.ok (Resolved.Found f))
    (heng : (E.step (E.new fut.local_root fut.request)).2
      = some (Except.ok (Resolved.Found f)))
    (hbuild : build f = Except.error e) :
    (∃ err : Error,
      FileService.serv resolve build self request = Except.error err
      ∧ err.kind = ErrorKind.Other)
    ∧ (∃ err : Error,
      (FileServiceFuture.poll E build fut).2 = Poll.Ready (Except.error err)
      ∧ err.kind = ErrorKind.Other)
    ∧ (Error.new ErrorKind.Other e).kind = (Error.new ErrorKind.Other e2).kind := by
  constructor
  · refine ⟨Error.new ErrorKind.Other e, ?_, rfl⟩
    show (match resolve self.local_root request with
      | Except.error e => Except.error e
      | Except.ok resolved =>
        match (match resolved with
          | Resolved.IsDirectory => Response.builder_status_body 403 Body.Empty
          | Resolved.MethodNotMatched => Response.builder_status_body 400 Body.Empty
          | Resolved.NotFound => Response.builder_status_body 404 Body.Empty
          | Resolved.PermissionDenied => Response.builder_status_body 403 Body.Empty
          | Resolved.Found f => build f : Except ConstrError Response) with
        | Except.ok resp => Except.ok resp
        | Except.error e => Except.error (Error.new ErrorKind.Other e))
      = Except.error (Error.new ErrorKind.Other e)
    rw [hres]
    show (match build f with
      | Except.ok resp => Except.ok resp
      | Except.error e => Except.error (Error.new ErrorKind.Other e))
      = Except.error (Error.new ErrorKind.Other e)
    rw [hbuild]
  constructor
  · refine ⟨Error.new ErrorKind.Other e, ?_, rfl⟩
    show ((match (E.step (E.new fut.local_root fut.request)).2 with
      | none => (fut, Poll.Pending)
      | some (Except.error e) => (fut, Poll.Ready (Except.error e))
      | some (Except.ok resolved) =>
        match (match resolved with
          | Resolved.IsDirectory => Response.builder_status_body 403 Body.Empty
          | Resolved.MethodNotMatched => Response.builder_status_body 400 Body.Empty
          | Resolved.NotFound => Response.builder_status_body 404 Body.Empty
          | Resolved.PermissionDenied => Response.builder_status_body 403 Body.Empty
          | Resolved.Found f => build f : Except ConstrError Response) with
        | Except.ok resp => (fut, Poll.Ready (Except.ok resp))
        | Except.error e =>
          (fut, Poll.Ready (Except.error (Error.new ErrorKind.Other e)))) :
        FileServiceFuture B × Poll (Except Error Response)).2
      = Poll.Ready (Except.error (Error.new ErrorKind.Other e))
    rw [heng]
    show (match build f with
      | Except.ok resp => (fut, Poll.Ready (Except.ok resp))
      | Except.error e =>
        (fut, Poll.Ready (Except.error (Error.new ErrorKind.Other e))) :
        FileServiceFuture B × Poll (Except Error Response)).2
      = Poll.Ready (Except.error (Error.new ErrorKind.Other e))
    rw [hbuild]
  · rfl

/-- C10 witness: two construction failures of different source classes,
wrapped at the boundary, both surface with kind Other. -/
theorem c10_wrapped_kind_always_other_witness :
    constResolve (B := Unit) (Except.ok (Resolved.Found { id := 1 })) "/srv"
        { method := "GET", uri := "/srv/g.txt", body := () }
      = Except.ok (Resolved.Found { id := 1 })
    ∧ ((∃ err : Error,
        FileService.serv (constResolve (Except.ok (Resolved.Found { id := 1 })))
          (fun _ => Except.error { source := "DiskFull", msg := "no space" })
          (FileService.new "/srv")
          { method := "GET", uri := "/srv/g.txt", body := () }
        = Except.error err ∧ err.kind = ErrorKind.Other)
    ∧ (∃ err : Error,
        (FileServiceFuture.poll (constEngine (Except.ok (Resolved.Found { id := 1 })))
          (fun _ => Except.error { source := "DiskFull", msg := "no space" })
          (FileServiceFuture.new "/srv"
            { method := "GET", uri := "/srv/g.txt", body := () })).2
        = Poll.Ready (Except.error err) ∧ err.kind = ErrorKind.Other)
    ∧ (Error.new ErrorKind.Other { source := "DiskFull", msg := "no space" }).kind
      = (Error.new ErrorKind.Other { source := "Encoding", msg := "bad utf8" }).kind) :=
  ⟨rfl, c10_wrapped_kind_always_other
    (constResolve (Except.ok (Resolved.Found { id := 1 })))
    (constEngine (Except.ok (Resolved.Found { id := 1 })))
    (fun _ => Except.error { source := "DiskFull", msg := "no space" })
    (FileService.new "/srv")
    (FileServiceFuture.new "/srv" { method := "GET", uri := "/srv/g.txt", body := () })
    { method := "GET", uri := "/srv/g.txt", body := () }
    { id := 1 } { source := "DiskFull", msg := "no space" }
    { source := "Encoding", msg := "bad utf8" }
    rfl rfl rfl⟩
